import Mathlib

/-!
Verification of the Django-LiveView dispatch core.

This file gives a shallow embedding of the real-time dispatch core of the
Django-LiveView repository: JSON envelopes, the camelCase→snake_case key
normalization (`camel_to_snake`, `convert_keys_to_snake_case` from
`django_liveview/consumers.py`), the handler registry with middleware and
error-wrapping (`liveview/decorators.py`), the modern consumer dispatch
(`django_liveview/consumers.py`), the legacy compound-action consumer and
`send_html` (`liveview/consumers.py`), and the `send` helper
(`django_liveview/connections.py`).  Stateful / effectful Python code is
embedded as functions returning an explicit trace of effects together with
an optional uncaught exception (modelled by its message string).
-/

/-- JSON-like values exchanged over the websocket (the decoded envelopes). -/
inductive JValue where
  | str (s : String)
  | num (n : Int)
  | bool (b : Bool)
  | null
  | arr (items : List JValue)
  | obj (fields : List (String × JValue))
deriving Repr

/-- First regex pass of `camel_to_snake`:
`re.sub("(.)([A-Z][a-z]+)", r"\1_\2", name)`.
The scan is left-to-right and non-overlapping: a match consumes one
arbitrary non-newline character, an ASCII uppercase letter and a maximal
nonempty run of ASCII lowercase letters, and rewriting resumes after the
consumed text.  `fuel` bounds the recursion; every step consumes at least
one character, so `fuel = l.length` never runs out. -/
def sub1Fuel : Nat → List Char → List Char
  | 0, l => l
  | _ + 1, [] => []
  | _ + 1, [c] => [c]
  | fuel + 1, c1 :: c2 :: rest =>
    if c1 ≠ '\n' ∧ c2.isUpper ∧ rest.takeWhile Char.isLower ≠ [] then
      c1 :: '_' :: c2 :: (rest.takeWhile Char.isLower
        ++ sub1Fuel fuel (rest.dropWhile Char.isLower))
    else
      c1 :: sub1Fuel fuel (c2 :: rest)

/-- The substitution `re.sub("(.)([A-Z][a-z]+)", r"\1_\2", name)` on a
character list. -/
def sub1 (l : List Char) : List Char := sub1Fuel l.length l

/-- Second regex pass of `camel_to_snake`:
`re.sub("([a-z0-9])([A-Z])", r"\1_\2", s1)`.  A match consumes an ASCII
lowercase letter or digit followed by an ASCII uppercase letter; rewriting
resumes after the match. -/
def sub2 : List Char → List Char
  | [] => []
  | [c] => [c]
  | c1 :: c2 :: rest =>
    if (c1.isLower ∨ c1.isDigit) ∧ c2.isUpper then
      c1 :: '_' :: c2 :: sub2 rest
    else
      c1 :: sub2 (c2 :: rest)

/-- Model of `camel_to_snake` from `django_liveview/consumers.py`: the two regex
substitutions followed by `.lower()` (ASCII lowering). -/
def camel_to_snake (name : String) : String :=
  String.mk ((sub2 (sub1 name.data)).map Char.toLower)

/-- Python-dict insertion: overwriting an existing key keeps its position,
a new key is appended.  This is the semantics of `d[k] = v` on a `dict`,
used both for the handler registry and for dict comprehensions. -/
def dictInsert {α : Type} (k : String) (v : α) :
    List (String × α) → List (String × α)
  | [] => [(k, v)]
  | (k', v') :: rest =>
    if k' = k then (k', v) :: rest else (k', v') :: dictInsert k v rest

/-- Python-dict lookup `d.get(k)`: the unique binding of `k`, modelled as
the first one (dicts built by `dictInsert` never hold duplicate keys). -/
def dictGet {α : Type} (l : List (String × α)) (k : String) : Option α :=
  match l with
  | [] => none
  | (k', v) :: rest => if k' = k then some v else dictGet rest k

/-- Python `k in d`. -/
def dictContains {α : Type} (l : List (String × α)) (k : String) : Bool :=
  (dictGet l k).isSome

/-- Rebuild a dict from a list of key/value pairs in order, later bindings
of the same key overwriting earlier ones — the semantics of a Python dict
comprehension. -/
def dictOfPairs (ps : List (String × JValue)) : List (String × JValue) :=
  ps.foldl (fun d p => dictInsert p.1 p.2 d) []

mutual
/-- Model of `convert_keys_to_snake_case` from `django_liveview/consumers.py`:
recursively convert all dict keys from camelCase to snake_case; lists are
descended into, all other values pass through unchanged.  The dict
comprehension is modelled by `dictOfPairs` of the converted pairs. -/
def convert_keys_to_snake_case : JValue → JValue
  | .obj fields => .obj (dictOfPairs (convertPairs fields))
  | .arr items => .arr (convertList items)
  | .str s => .str s
  | .num n => .num n
  | .bool b => .bool b
  | .null => .null

/-- The converted `(camel_to_snake key, convert value)` pairs of a dict. -/
def convertPairs : List (String × JValue) → List (String × JValue)
  | [] => []
  | (k, v) :: rest =>
    (camel_to_snake k, convert_keys_to_snake_case v) :: convertPairs rest

/-- Elementwise conversion of a JSON list. -/
def convertList : List JValue → List JValue
  | [] => []
  | v :: rest => convert_keys_to_snake_case v :: convertList rest
end

/-- The consumer-facing surface of a websocket consumer, as seen by the
dispatch code: its channel name, whether it exposes the optional
`broadcast_to_all` capability (the `hasattr` probe in `connections.send`),
and its `broadcast_group` attribute. -/
structure ConsumerModel where
  id : String
  has_broadcast_to_all : Bool
  broadcast_group : String
deriving Repr

/-- Observable side effects of the dispatch code.  `sendJson c p` is
`consumer.send_json(p)` on the consumer with channel name `c`;
`groupSend g p` is a channel-layer `group_send` of payload `p` to group
`g`; `broadcastToAll c p` is a call of consumer `c`'s `broadcast_to_all`
capability; `printLog` is a bare `print`; `printExcInfo` is the
`print(exc_type)` of the legacy consumer; `handlerCalled p` is a probe
marking that a handler body ran with content `p`. -/
inductive Effect where
  | sendJson (conn : String) (payload : JValue)
  | groupSend (group : String) (payload : JValue)
  | broadcastToAll (conn : String) (payload : JValue)
  | logWarning (msg : String)
  | logError (msg : String)
  | printLog (msg : String)
  | printExcInfo
  | handlerCalled (content : JValue)
deriving Repr

/-- Whether `get_channel_layer()`'s `group_send` succeeds or raises, the
environment condition distinguishing the two broadcast fallback paths in
`connections.send`. -/
inductive ChannelLayerBehavior where
  | ok
  | raises (msg : String)

/-- Model of `send(consumer, data, broadcast)` from `django_liveview/connections.py`.
The result is the trace of effects together with the message of the
uncaught exception, if any:

* `consumer is None` → raise `ValueError("Consumer cannot be None when not
  broadcasting.")` before anything else;
* `broadcast` and the consumer has `broadcast_to_all` → call it;
* `broadcast` otherwise → try a channel-layer `group_send` to the
  consumer's `broadcast_group`; if that raises, log the error and fall
  back to `consumer.send_json(data)`;
* not `broadcast` → `consumer.send_json(data)`. -/
def connections_send (layer : ChannelLayerBehavior)
    (consumer : Option ConsumerModel) (data : JValue) (broadcast : Bool) :
    List Effect × Option String :=
  match consumer with
  | none => ([], some "ValueError: Consumer cannot be None when not broadcasting.")
  | some c =>
    if broadcast then
      if c.has_broadcast_to_all then
        ([.broadcastToAll c.id data], none)
      else
        match layer with
        | .ok => ([.groupSend c.broadcast_group data], none)
        | .raises e =>
          ([.logError ("Error sending broadcast message: " ++ e),
            .sendJson c.id data], none)
    else
      ([.sendJson c.id data], none)

/-- A direct (non-broadcast) `send(consumer, data)`: with a non-`None`
consumer and `broadcast=False` this is exactly `consumer.send_json(data)`. -/
def send_direct (c : ConsumerModel) (data : JValue) : List Effect :=
  [.sendJson c.id data]

theorem connections_send_direct (layer : ChannelLayerBehavior)
    (c : ConsumerModel) (data : JValue) :
    connections_send layer (some c) data false = (send_direct c data, none) := rfl

/-- Result of one middleware call, as tested by the wrapper:
`cancel` models the Python value `False` exactly (`if result is False`),
`cont` models every other return value. -/
inductive MiddlewareResult where
  | cancel
  | cont

/-- A middleware function: receives `(consumer, content, function_name)`. -/
def Middleware : Type := ConsumerModel → JValue → String → MiddlewareResult

/-- A raw (unwrapped) handler body: receives `(consumer, content)` and
produces a trace of effects and optionally the message of an exception it
raises. -/
def RawHandler : Type := ConsumerModel → JValue → List Effect × Option String

/-- The `LiveviewHandlerRegistry` state from `liveview/decorators.py`:
`_handlers` is a Python dict from function name to the registered wrapper
(an entry `(name, body)` stands for the closure wrapping `body`; the
wrapper reads the live middleware list at call time), `_middleware` is the
middleware list. -/
structure LiveviewHandlerRegistry where
  handlers : List (String × RawHandler)
  middleware : List Middleware

/-- Model of `register(function_name)` applied to a body: stores the wrapper under
`function_name` in the dict (`self._handlers[function_name] = wrapper`),
overwriting any previous entry for the same name. -/
def LiveviewHandlerRegistry.register (reg : LiveviewHandlerRegistry)
    (function_name : String) (body : RawHandler) : LiveviewHandlerRegistry :=
  { reg with handlers := dictInsert function_name body reg.handlers }

/-- Model of `get_handler(function_name)`: `self._handlers.get(function_name)`. -/
def LiveviewHandlerRegistry.get_handler (reg : LiveviewHandlerRegistry)
    (function_name : String) : Option RawHandler :=
  dictGet reg.handlers function_name

/-- Model of `list_functions()`: `list(self._handlers.keys())`, in insertion order. -/
def LiveviewHandlerRegistry.list_functions (reg : LiveviewHandlerRegistry) :
    List String :=
  reg.handlers.map Prod.fst

/-- Model of `add_middleware(middleware_func)`: appends to the chain. -/
def LiveviewHandlerRegistry.add_middleware (reg : LiveviewHandlerRegistry)
    (m : Middleware) : LiveviewHandlerRegistry :=
  { reg with middleware := reg.middleware ++ [m] }

/-- The middleware loop at the top of the wrapper in `register`: run each
middleware in order with `(consumer, content, function_name)`; the first
one whose result `is False` stops the loop with `false` (the wrapper then
returns without running the handler body). -/
def runMiddlewareChain (mws : List Middleware) (c : ConsumerModel)
    (content : JValue) (function_name : String) : Bool :=
  match mws with
  | [] => true
  | m :: rest =>
    match m c content function_name with
    | .cancel => false
    | .cont => runMiddlewareChain rest c content function_name

/-- The wrapper that `register` installs around a handler body: run the
middleware chain (reading the registry's live `_middleware` list); if some
middleware returned `False`, return with no further effect; otherwise run
the body inside `try`: on an exception `e`, log
`"Error in handler '<name>': <e>"`, `send` the error envelope
`{"error": "Handler error: <e>", "function": "<name>"}` to the consumer
(a direct `send`, `broadcast=False`), and re-raise `e`. -/
def wrapperRun (function_name : String) (mws : List Middleware)
    (body : RawHandler) (c : ConsumerModel) (content : JValue) :
    List Effect × Option String :=
  if runMiddlewareChain mws c content function_name then
    match body c content with
    | (effs, none) => (effs, none)
    | (effs, some e) =>
      (effs ++ [.logError ("Error in handler '" ++ function_name ++ "': " ++ e)]
        ++ send_direct c (.obj [("error", .str ("Handler error: " ++ e)),
                                ("function", .str function_name)]),
       some e)
  else
    ([], none)

/-- Python `f"{v}"` rendering of the hashable scalar values a `function`
field can hold (`None` renders as `"None"`, booleans as `True`/`False`). -/
def pyShow : Option JValue → String
  | some (.str s) => s
  | some (.num n) => toString n
  | some (.bool b) => if b then "True" else "False"
  | some .null => "None"
  | some (.arr _) => ""
  | some (.obj _) => ""
  | none => "None"

/-- The unknown-function branch of `LiveViewConsumer.receive_json`
(`django_liveview/consumers.py`): `send` the error envelope
`{"error": "Unknown function: <name>", "available_functions":
list_functions()}` directly to the sender, then log a warning.  No
exception escapes: the connection stays open. -/
def unknownFunctionPath (reg : LiveviewHandlerRegistry) (c : ConsumerModel)
    (shown : String) : List Effect × Option String :=
  (send_direct c (.obj
      [("error", .str ("Unknown function: " ++ shown)),
       ("available_functions", .arr (reg.list_functions.map JValue.str))])
    ++ [.logWarning ("Unknown LiveView function called: " ++ shown)],
   none)

/-- Model of `LiveViewConsumer.receive_json(content)` from
`django_liveview/consumers.py`, on a decoded JSON object `content`:

1. `content = convert_keys_to_snake_case(content)`;
2. `function_name = content.get("function")`;
3. `handler = liveview_registry.get_handler(function_name)` — only a
   string field can name a registered handler (registry keys are strings);
   an unhashable field value (list or dict) makes the `.get` raise a
   `TypeError`, which escapes uncaught;
4. if a handler was found, call it (`handler(self, content)` — the stored
   wrapper, whose middleware list is the registry's current one);
   otherwise take the unknown-function branch. -/
def receive_json (reg : LiveviewHandlerRegistry) (c : ConsumerModel)
    (content : List (String × JValue)) : List Effect × Option String :=
  let converted := dictOfPairs (convertPairs content)
  match dictGet converted "function" with
  | some (.str s) =>
    match reg.get_handler s with
    | some body => wrapperRun s reg.middleware body c (.obj converted)
    | none => unknownFunctionPath reg c s
  | some (.arr _) => ([], some "TypeError: unhashable type")
  | some (.obj _) => ([], some "TypeError: unhashable type")
  | other => unknownFunctionPath reg c (pyShow other)

/-- A probe handler body: records the content it was invoked with and
returns normally. -/
def probeHandler : RawHandler := fun _ content => ([.handlerCalled content], none)

/-- The empty registry (`LiveviewHandlerRegistry()` at module load). -/
def emptyRegistry : LiveviewHandlerRegistry := { handlers := [], middleware := [] }

/-- Connection-lifecycle effects of the two consumers' `connect` /
`disconnect` methods: channel-layer group joins/leaves, accepting the
websocket handshake, and creating/deleting the persisted `Client` record
keyed by the channel name. -/
inductive ConnEffect where
  | groupAdd (group : String) (channel : String)
  | groupDiscard (group : String) (channel : String)
  | acceptConn
  | createRecord (channel : String)
  | deleteRecord (channel : String)
deriving Repr, DecidableEq

/-- Model of `LiveViewConsumer.connect` from `django_liveview/consumers.py` (modern,
synchronous consumer): read `room_name` from the URL route, join group
`"room_<room_name>"`, join group `"broadcast"`, then `accept()`.  (The
first, bare `self.channel_layer.group_add(...)` call on line 40 creates a
coroutine that is never awaited — a no-op.)  No storage record is
created. -/
def django_connect (room_name : String) (channel : String) : List ConnEffect :=
  [.groupAdd ("room_" ++ room_name) channel,
   .groupAdd "broadcast" channel,
   .acceptConn]

/-- Model of `LiveViewConsumer.disconnect` from `django_liveview/consumers.py`:
leave the room group and the broadcast group. -/
def django_disconnect (room_name : String) (channel : String) : List ConnEffect :=
  [.groupDiscard ("room_" ++ room_name) channel,
   .groupDiscard "broadcast" channel]

/-- Model of `LiveViewConsumer.connect` from `liveview/consumers.py` (legacy, async
consumer): `accept()` first, then join group `"broadcast"`, then create
the `Client` record for the channel name.  No room group is joined: the
`room_name` URL parameter is never read. -/
def liveview_connect (channel : String) : List ConnEffect :=
  [.acceptConn,
   .groupAdd "broadcast" channel,
   .createRecord channel]

/-- Model of `LiveViewConsumer.disconnect` from `liveview/consumers.py`: leave the
broadcast group and delete the `Client` record. -/
def liveview_disconnect (channel : String) : List ConnEffect :=
  [.groupDiscard "broadcast" channel,
   .deleteRecord channel]

/-- Does a connection trace create a persisted connection record? -/
def createsRecord (tr : List ConnEffect) : Bool :=
  tr.any fun e => match e with
    | .createRecord _ => true
    | _ => false

/-- Does a connection trace join a given group? -/
def joinsGroup (tr : List ConnEffect) (g : String) : Bool :=
  tr.any fun e => match e with
    | .groupAdd g' _ => g' = g
    | _ => false

/-- Python `str.lower()` (ASCII lowering). -/
def strLower (s : String) : String := String.mk (s.data.map Char.toLower)

/-- Does the character list start with the (nonempty) separator? -/
def sepLeads : List Char → List Char → Bool
  | [], _ => true
  | _ :: _, [] => false
  | s :: ss, c :: cs => if s = c then sepLeads ss cs else false

/-- Python `str.split(sep)` for a nonempty separator, on character lists:
non-overlapping left-to-right splitting; adjacent separators yield empty
pieces and the empty string splits to `[""]`.  `fuel` bounds the
recursion; each step consumes at least one character, so
`fuel = length + 1` never runs out. -/
def pySplitFuel (sep : List Char) : Nat → List Char → List (List Char)
  | 0, l => [l]
  | fuel + 1, l =>
    if sepLeads sep l then
      [] :: pySplitFuel sep fuel (l.drop sep.length)
    else
      match l with
      | [] => [[]]
      | c :: cs =>
        match pySplitFuel sep fuel cs with
        | [] => [[c]]
        | piece :: rest => (c :: piece) :: rest

/-- Python `s.split(sep)` on strings (nonempty `sep`). -/
def pySplit (s sep : String) : List String :=
  (pySplitFuel sep.data (s.data.length + 1) s.data).map String.mk

/-- The action table the legacy consumer's `eval` resolves against: the
modules imported from `settings.LIVEVIEW_APPS` and their functions,
as `(module name, function name) ↦ body`.  A name pair not in the table
makes the `eval` raise (`NameError` / `AttributeError`), which the
`except` clause catches. -/
def resolveAction (acts : List ((String × String) × RawHandler))
    (module fn : String) : Option RawHandler :=
  match acts with
  | [] => none
  | ((m, f), h) :: rest =>
    if m = module ∧ f = fn then some h else resolveAction rest module fn

/-- Model of `LiveViewConsumer.receive_json(data_received)` from
`liveview/consumers.py` (legacy compound-action consumer):

* `data = data_received if "data" in data_received else None` — note that
  `data` is the *whole* envelope when a `"data"` key is present (and then
  truthy, since the dict is nonempty);
* proceed only when `data` is truthy and `"action" in data`;
* `action_data = data["action"].split("->")` — calling `.split` on a
  non-string action value raises an uncaught `AttributeError`;
* only when the split yields exactly two parts, lowercase both and
  `eval(f"{action}.{function}(self, data)")` inside `try`; any exception
  (resolution failure or a fault raised by the invoked function) is
  caught and handled by `print(f"Bad action: {data['action']}")` followed
  by `print(exc_type)` — nothing is sent to the client and nothing is
  re-raised;
* when the split does not yield exactly two parts, nothing at all happens:
  no log, no send, no exception. -/
def legacy_receive_json (acts : List ((String × String) × RawHandler))
    (c : ConsumerModel) (msg : List (String × JValue)) :
    List Effect × Option String :=
  if dictContains msg "data" && dictContains msg "action" then
    match dictGet msg "action" with
    | some (.str a) =>
      match pySplit a "->" with
      | [p1, p2] =>
        match resolveAction acts (strLower p1) (strLower p2) with
        | some h =>
          match h c (.obj msg) with
          | (effs, none) => (effs, none)
          | (effs, some _) =>
            (effs ++ [.printLog ("Bad action: " ++ a), .printExcInfo], none)
        | none => ([.printLog ("Bad action: " ++ a), .printExcInfo], none)
      | _ => ([], none)
    | some _ => ([], some "AttributeError: split called on a non-string")
    | none => ([], none)
  else
    ([], none)

/-- Result of the envelope-building part of `send_html` from
`liveview/consumers.py`: `skipped` when `"selector"`/`"html"` are not both
present (the body is silently not executed), `keyError` when
`data["action"]` raises because `"action"` is absent, `built env` when the
outgoing envelope `env` (`my_data`) was assembled. -/
inductive SendHtmlBuild where
  | skipped
  | keyError
  | built (envelope : List (String × JValue))
deriving Repr

/-- The `my_data` construction in `LiveViewConsumer.send_html` from
`liveview/consumers.py`: requires `"selector"` and `"html"` in `data`;
reads `data["action"]` unconditionally (a `KeyError` if absent); always
inserts `"append"` (the input's value if present, else `False`); inserts
each of `"url"`, `"title"`, `"scroll"`, `"scrollTop"` only when present in
`data`.  Keys are listed in the dict's insertion order.  (The subsequent
delivery — `group_send` to the broadcast group when `broadcast` and a
channel layer exists, else `send_data_to_frontend` — does not alter the
envelope.) -/
def send_html_build (data : List (String × JValue)) : SendHtmlBuild :=
  if dictContains data "selector" && dictContains data "html" then
    match dictGet data "action" with
    | none => .keyError
    | some act =>
      .built ([("action", act),
               ("selector", (dictGet data "selector").getD .null),
               ("html", (dictGet data "html").getD .null)]
        ++ (match dictGet data "append" with
            | some v => [("append", v)]
            | none => [("append", .bool false)])
        ++ (match dictGet data "url" with
            | some v => [("url", v)] | none => [])
        ++ (match dictGet data "title" with
            | some v => [("title", v)] | none => [])
        ++ (match dictGet data "scroll" with
            | some v => [("scroll", v)] | none => [])
        ++ (match dictGet data "scrollTop" with
            | some v => [("scrollTop", v)] | none => []))
  else
    .skipped

/-! ## Helper lemmas -/

/-- Looking up the just-inserted key returns the just-inserted value. -/
theorem dictGet_dictInsert_self {α : Type} (k : String) (v : α)
    (l : List (String × α)) : dictGet (dictInsert k v l) k = some v := by
  induction l with
  | nil => simp [dictInsert, dictGet]
  | cons p rest ih =>
    obtain ⟨k', v'⟩ := p
    by_cases h : k' = k
    · simp [dictInsert, dictGet, h]
    · simp [dictInsert, dictGet, h, ih]

/-- Lookup distributes over list append: the left bindings shadow the
right ones. -/
theorem dictGet_append {α : Type} (l1 l2 : List (String × α)) (k : String) :
    dictGet (l1 ++ l2) k =
      (match dictGet l1 k with
       | some v => some v
       | none => dictGet l2 k) := by
  induction l1 with
  | nil => simp [dictGet]
  | cons p rest ih =>
    obtain ⟨k', v'⟩ := p
    by_cases h : k' = k
    · simp [dictGet, h]
    · simp [dictGet, h, ih]

/-- If some middleware in the chain answers `cancel` (Python `False`) for
these arguments, the chain loop stops with `false`. -/
theorem runMiddlewareChain_cancel {mws : List Middleware} {m : Middleware}
    {c : ConsumerModel} {content : JValue} {name : String}
    (hm : m ∈ mws) (hc : m c content name = .cancel) :
    runMiddlewareChain mws c content name = false := by
  induction mws with
  | nil => cases hm
  | cons m' rest ih =>
    cases hm with
    | head => simp [runMiddlewareChain, hc]
    | tail _ hmem =>
      cases hr : m' c content name with
      | cancel => simp [runMiddlewareChain, hr]
      | cont => simp [runMiddlewareChain, hr, ih hmem]

/-- The function `convertList` is elementwise conversion. -/
theorem convertList_eq_map (items : List JValue) :
    convertList items = items.map convert_keys_to_snake_case := by
  induction items with
  | nil => simp [convertList]
  | cons v rest ih => simp [convertList, ih]

/-- The function `convertPairs` converts every key with `camel_to_snake` and every
value recursively. -/
theorem convertPairs_eq_map (fields : List (String × JValue)) :
    convertPairs fields =
      fields.map fun p => (camel_to_snake p.1, convert_keys_to_snake_case p.2) := by
  induction fields with
  | nil => simp [convertPairs]
  | cons p rest ih => simp [convertPairs, ih]

/-! ## Claim theorems -/

/-- C10: `send` with `consumer=None` raises the `ValueError` before any
delivery is attempted (the effect trace is empty), for every value of the
`broadcast` flag — including `broadcast=True` — even though the error
message reads "Consumer cannot be None when not broadcasting.". -/
theorem send_none_always_raises (layer : ChannelLayerBehavior)
    (data : JValue) (broadcast : Bool) :
    connections_send layer none data broadcast =
      ([], some "ValueError: Consumer cannot be None when not broadcasting.") := rfl

/-- C9: for `send` with `broadcast=True`: a consumer exposing
`broadcast_to_all` has that capability used; otherwise a channel-layer
`group_send` to the consumer's `broadcast_group` is attempted, and if it
raises, the fault is logged and the envelope is delivered to the calling
consumer alone as a degraded fallback. -/
theorem send_broadcast_paths (layer : ChannelLayerBehavior)
    (c : ConsumerModel) (data : JValue) :
    (c.has_broadcast_to_all = true →
      connections_send layer (some c) data true =
        ([.broadcastToAll c.id data], none)) ∧
    (c.has_broadcast_to_all = false →
      connections_send .ok (some c) data true =
        ([.groupSend c.broadcast_group data], none)) ∧
    (∀ e : String, c.has_broadcast_to_all = false →
      connections_send (.raises e) (some c) data true =
        ([.logError ("Error sending broadcast message: " ++ e),
          .sendJson c.id data], none)) := by
  refine ⟨fun h => ?_, fun h => ?_, fun e h => ?_⟩ <;>
    simp [connections_send, h]

/-- C9 witness: the theorem applied to concrete consumers, covering the
capability path and the degraded-fallback path. -/
theorem send_broadcast_paths_witness :
    connections_send .ok (some ⟨"c1", true, "broadcast"⟩) (.str "m") true =
      ([.broadcastToAll "c1" (.str "m")], none) ∧
    connections_send (.raises "boom") (some ⟨"c2", false, "broadcast"⟩)
        (.str "m") true =
      ([.logError "Error sending broadcast message: boom",
        .sendJson "c2" (.str "m")], none) :=
  ⟨(send_broadcast_paths .ok ⟨"c1", true, "broadcast"⟩ (.str "m")).1 rfl,
   (send_broadcast_paths (.raises "boom") ⟨"c2", false, "broadcast"⟩
      (.str "m")).2.2 "boom" rfl⟩

/-- C5: registering two handlers in sequence under the same name leaves
only (the wrapper of) the second one reachable via lookup: `get_handler`
returns exactly the second registered body's wrapper entry. -/
theorem register_twice_last_wins (reg : LiveviewHandlerRegistry)
    (name : String) (h1 h2 : RawHandler) :
    ((reg.register name h1).register name h2).get_handler name = some h2 := by
  simp [LiveviewHandlerRegistry.register, LiveviewHandlerRegistry.get_handler,
    dictGet_dictInsert_self]

/-- C3: if any middleware in the chain, invoked with
`(connection, payload, function_name)`, returns the cancel signal (the
Python value `False`), the wrapped handler body never executes: the
wrapper returns at once with no effects and no exception — and the full
`receive_json` dispatch of such a message has no handler side effects at
all. -/
theorem middleware_cancel_blocks_handler :
    (∀ (name : String) (mws : List Middleware) (body : RawHandler)
       (c : ConsumerModel) (content : JValue) (m : Middleware),
       m ∈ mws → m c content name = .cancel →
       wrapperRun name mws body c content = ([], none)) ∧
    (∀ (reg : LiveviewHandlerRegistry) (c : ConsumerModel)
       (content : List (String × JValue)) (s : String) (body : RawHandler)
       (m : Middleware),
       dictGet (dictOfPairs (convertPairs content)) "function" = some (.str s) →
       reg.get_handler s = some body →
       m ∈ reg.middleware →
       m c (.obj (dictOfPairs (convertPairs content))) s = .cancel →
       receive_json reg c content = ([], none)) := by
  constructor
  · intro name mws body c content m hm hc
    simp [wrapperRun, runMiddlewareChain_cancel hm hc]
  · intro reg c content s body m hf hh hm hc
    simp [receive_json, hf, hh, wrapperRun, runMiddlewareChain_cancel hm hc]

/-- C3 witness: a concrete always-cancelling middleware suppresses a
concrete effectful handler body, through the full dispatch. -/
theorem middleware_cancel_blocks_handler_witness :
    receive_json
      { handlers := [("search", probeHandler)],
        middleware := [fun _ _ _ => .cancel] }
      ⟨"c1", true, "broadcast"⟩ [("function", .str "search")] = ([], none) :=
  middleware_cancel_blocks_handler.2
    { handlers := [("search", probeHandler)],
      middleware := [fun _ _ _ => .cancel] }
    ⟨"c1", true, "broadcast"⟩ [("function", .str "search")] "search"
    probeHandler (fun _ _ _ => .cancel) rfl rfl (List.mem_singleton.mpr rfl) rfl

/-- C4: when a registered handler body raises during invocation (after
the middleware chain let it run), the wrapper logs the failure with the
function name and error detail, sends the error envelope
`{"error": "Handler error: <message>", "function": "<name>"}` back to the
originating connection, and re-raises the exception (the exception
component of the result is the original message, so it propagates to the
transport layer). -/
theorem handler_fault_logged_sent_reraised (name : String)
    (mws : List Middleware) (body : RawHandler) (c : ConsumerModel)
    (content : JValue) (effs : List Effect) (e : String)
    (hmw : runMiddlewareChain mws c content name = true)
    (hb : body c content = (effs, some e)) :
    wrapperRun name mws body c content =
      (effs ++ [.logError ("Error in handler '" ++ name ++ "': " ++ e),
                .sendJson c.id (.obj
                  [("error", .str ("Handler error: " ++ e)),
                   ("function", .str name)])],
       some e) := by
  simp [wrapperRun, hmw, hb, send_direct]

/-- C4 witness: a concrete raising handler body with an empty middleware
chain. -/
theorem handler_fault_logged_sent_reraised_witness :
    wrapperRun "search" [] (fun _ _ => ([], some "boom"))
      ⟨"c1", true, "broadcast"⟩ (.obj []) =
      ([.logError "Error in handler 'search': boom",
        .sendJson "c1" (.obj
          [("error", .str "Handler error: boom"),
           ("function", .str "search")])],
       some "boom") :=
  handler_fault_logged_sent_reraised "search" [] (fun _ _ => ([], some "boom"))
    ⟨"c1", true, "broadcast"⟩ (.obj []) [] "boom" rfl rfl

/-- C2: when the (normalized) `function` field names no registered handler
— a string with no registry entry, or an absent field (read as `None`) —
no handler is invoked: the result trace consists of exactly the error
envelope `{"error": "Unknown function: <name>", "available_functions":
[...]}` sent to the originating connection, whose list is exactly the
currently registered names, followed by a logged warning; no exception
escapes, so the connection remains open. -/
theorem unknown_function_error_envelope (reg : LiveviewHandlerRegistry)
    (c : ConsumerModel) (content : List (String × JValue)) :
    (∀ s : String,
      dictGet (dictOfPairs (convertPairs content)) "function" = some (.str s) →
      reg.get_handler s = none →
      receive_json reg c content =
        ([.sendJson c.id (.obj
            [("error", .str ("Unknown function: " ++ s)),
             ("available_functions", .arr (reg.list_functions.map JValue.str))]),
          .logWarning ("Unknown LiveView function called: " ++ s)], none)) ∧
    (dictGet (dictOfPairs (convertPairs content)) "function" = none →
      receive_json reg c content =
        ([.sendJson c.id (.obj
            [("error", .str "Unknown function: None"),
             ("available_functions", .arr (reg.list_functions.map JValue.str))]),
          .logWarning "Unknown LiveView function called: None"], none)) := by
  constructor
  · intro s hf hn
    simp [receive_json, hf, hn, unknownFunctionPath, send_direct]
  · intro hf
    simp [receive_json, hf, unknownFunctionPath, send_direct, pyShow]

/-- C2 witness: a registry holding only `"other"`; the envelope names the
unregistered function `"nope"`, and the sender gets the error envelope
listing exactly `["other"]`. -/
theorem unknown_function_error_envelope_witness :
    receive_json { handlers := [("other", probeHandler)], middleware := [] }
      ⟨"c1", true, "broadcast"⟩ [("function", .str "nope")] =
      ([.sendJson "c1" (.obj
          [("error", .str "Unknown function: nope"),
           ("available_functions", .arr [.str "other"])]),
        .logWarning "Unknown LiveView function called: nope"], none) :=
  (unknown_function_error_envelope
      { handlers := [("other", probeHandler)], middleware := [] }
      ⟨"c1", true, "broadcast"⟩ [("function", .str "nope")]).1 "nope" rfl rfl

/-- C1: on the modern dispatch path every incoming envelope is key-wise
normalized by `convert_keys_to_snake_case` before the `function` field is
read and before any handler runs: the dispatched handler receives exactly
the converted envelope (first two conjuncts), the conversion rewrites
every map key with `camel_to_snake` recursively, descends into nested
maps and sequences, and passes non-container values through unchanged
(structural conjuncts), and in particular `{"userName": "x"}` converts to
`{"user_name": "x"}`. -/
theorem keys_normalized_before_dispatch :
    (∀ (reg : LiveviewHandlerRegistry) (c : ConsumerModel)
       (content : List (String × JValue)) (s : String) (body : RawHandler),
       dictGet (dictOfPairs (convertPairs content)) "function" = some (.str s) →
       reg.get_handler s = some body →
       receive_json reg c content =
         wrapperRun s reg.middleware body c
           (.obj (dictOfPairs (convertPairs content)))) ∧
    (∀ (c : ConsumerModel) (content : List (String × JValue)) (s : String),
       dictGet (dictOfPairs (convertPairs content)) "function" = some (.str s) →
       receive_json { handlers := [(s, probeHandler)], middleware := [] }
           c content =
         ([.handlerCalled (convert_keys_to_snake_case (.obj content))], none)) ∧
    convert_keys_to_snake_case (.obj [("userName", .str "x")])
      = .obj [("user_name", .str "x")] ∧
    (∀ fields : List (String × JValue),
      convert_keys_to_snake_case (.obj fields) =
        .obj (dictOfPairs (fields.map fun p =>
          (camel_to_snake p.1, convert_keys_to_snake_case p.2)))) ∧
    (∀ items : List JValue,
      convert_keys_to_snake_case (.arr items) =
        .arr (items.map convert_keys_to_snake_case)) ∧
    (∀ s : String, convert_keys_to_snake_case (.str s) = .str s) ∧
    (∀ n : Int, convert_keys_to_snake_case (.num n) = .num n) ∧
    (∀ b : Bool, convert_keys_to_snake_case (.bool b) = .bool b) ∧
    convert_keys_to_snake_case .null = .null := by
  refine ⟨?_, ?_, by rfl, ?_, ?_, fun _ => rfl, fun _ => rfl, fun _ => rfl, rfl⟩
  · intro reg c content s body hf hh
    simp [receive_json, hf, hh]
  · intro c content s hf
    simp [receive_json, hf, LiveviewHandlerRegistry.get_handler, dictGet,
      wrapperRun, runMiddlewareChain, probeHandler, convert_keys_to_snake_case]
  · intro fields
    simp [convert_keys_to_snake_case, convertPairs_eq_map]
  · intro items
    simp [convert_keys_to_snake_case, convertList_eq_map]

/-- C1 witness: the envelope `{"function": "search", "userName": "x"}` is
delivered to the registered `"search"` handler as
`{"function": "search", "user_name": "x"}`. -/
theorem keys_normalized_before_dispatch_witness :
    receive_json { handlers := [("search", probeHandler)], middleware := [] }
      ⟨"c1", true, "broadcast"⟩
      [("function", .str "search"), ("userName", .str "x")] =
      ([.handlerCalled (.obj
          [("function", .str "search"), ("user_name", .str "x")])], none) :=
  keys_normalized_before_dispatch.2.1 ⟨"c1", true, "broadcast"⟩
    [("function", .str "search"), ("userName", .str "x")] "search" rfl

/-- C6: every envelope `send_html` builds (from data containing both
`"selector"` and `"html"`) contains the `"append"` field — with value
`False` whenever the input omits it — and contains each of `"url"`,
`"title"`, `"scroll"`, `"scrollTop"` exactly when the corresponding key is
present in the input data. -/
theorem send_html_envelope_fields (data env : List (String × JValue))
    (h : send_html_build data = .built env) :
    dictContains env "append" = true ∧
    (dictContains data "append" = false →
      dictGet env "append" = some (.bool false)) ∧
    dictContains env "url" = dictContains data "url" ∧
    dictContains env "title" = dictContains data "title" ∧
    dictContains env "scroll" = dictContains data "scroll" ∧
    dictContains env "scrollTop" = dictContains data "scrollTop" := by
  unfold send_html_build at h
  split at h
  · rcases hact : dictGet data "action" with _ | act
    · rw [hact] at h; cases h
    · rw [hact] at h
      injection h with h
      subst h
      rcases hA : dictGet data "append" with _ | vA <;>
        rcases hU : dictGet data "url" with _ | vU <;>
          rcases hT : dictGet data "title" with _ | vT <;>
            rcases hS : dictGet data "scroll" with _ | vS <;>
              rcases hST : dictGet data "scrollTop" with _ | vST <;>
                simp_all [dictContains, dictGet_append, dictGet]
  · cases h

/-- C6 witness: data with `selector`, `html`, `action` and `scroll` but no
`append`: the built envelope carries `"append": false` and `"scroll"`,
and none of `"url"`, `"title"`, `"scrollTop"`. -/
theorem send_html_envelope_fields_witness :
    dictContains [("action", JValue.str "home->search"),
      ("selector", JValue.str "#r"), ("html", JValue.str "<p>hi</p>"),
      ("append", JValue.bool false), ("scroll", JValue.bool true)] "append"
        = true ∧
    (dictContains [("action", JValue.str "home->search"),
        ("selector", JValue.str "#r"), ("html", JValue.str "<p>hi</p>"),
        ("scroll", JValue.bool true)] "append" = false →
      dictGet [("action", JValue.str "home->search"),
        ("selector", JValue.str "#r"), ("html", JValue.str "<p>hi</p>"),
        ("append", JValue.bool false), ("scroll", JValue.bool true)] "append"
          = some (.bool false)) ∧
    dictContains [("action", JValue.str "home->search"),
      ("selector", JValue.str "#r"), ("html", JValue.str "<p>hi</p>"),
      ("append", JValue.bool false), ("scroll", JValue.bool true)] "url"
        = dictContains [("action", JValue.str "home->search"),
            ("selector", JValue.str "#r"), ("html", JValue.str "<p>hi</p>"),
            ("scroll", JValue.bool true)] "url" ∧
    dictContains [("action", JValue.str "home->search"),
      ("selector", JValue.str "#r"), ("html", JValue.str "<p>hi</p>"),
      ("append", JValue.bool false), ("scroll", JValue.bool true)] "title"
        = dictContains [("action", JValue.str "home->search"),
            ("selector", JValue.str "#r"), ("html", JValue.str "<p>hi</p>"),
            ("scroll", JValue.bool true)] "title" ∧
    dictContains [("action", JValue.str "home->search"),
      ("selector", JValue.str "#r"), ("html", JValue.str "<p>hi</p>"),
      ("append", JValue.bool false), ("scroll", JValue.bool true)] "scroll"
        = dictContains [("action", JValue.str "home->search"),
            ("selector", JValue.str "#r"), ("html", JValue.str "<p>hi</p>"),
            ("scroll", JValue.bool true)] "scroll" ∧
    dictContains [("action", JValue.str "home->search"),
      ("selector", JValue.str "#r"), ("html", JValue.str "<p>hi</p>"),
      ("append", JValue.bool false), ("scroll", JValue.bool true)] "scrollTop"
        = dictContains [("action", JValue.str "home->search"),
            ("selector", JValue.str "#r"), ("html", JValue.str "<p>hi</p>"),
            ("scroll", JValue.bool true)] "scrollTop" :=
  send_html_envelope_fields
    [("action", JValue.str "home->search"), ("selector", JValue.str "#r"),
     ("html", JValue.str "<p>hi</p>"), ("scroll", JValue.bool true)]
    [("action", JValue.str "home->search"), ("selector", JValue.str "#r"),
     ("html", JValue.str "<p>hi</p>"), ("append", JValue.bool false),
     ("scroll", JValue.bool true)] rfl

/-- C7 counterexample: the modern consumer's `connect` for a client
supplying room identifier `"lobby"` creates no persisted connection
record, and the legacy consumer's `connect` never joins the room-scoped
group — so no connect path joins `room_R`, joins `broadcast` *and*
creates a storage record, refuting the claim at the concrete room
`"lobby"` / channel `"ch1"`. -/
theorem connect_counterexample :
    createsRecord (django_connect "lobby" "ch1") = false ∧
    joinsGroup (liveview_connect "ch1") "room_lobby" = false := by decide

/-- C7 (amended): on connect with room identifier `R`, the modern
(`django_liveview`) consumer joins the connection to group `room_R` and to
the global `broadcast` group before accepting the handshake but creates no
persisted connection record, while the legacy (`liveview`) consumer
accepts the handshake first, then joins only the `broadcast` group and
creates a persisted record keyed by the connection identifier, never
joining a room group. -/
theorem connect_traces (room ch : String) :
    django_connect room ch =
      [.groupAdd ("room_" ++ room) ch, .groupAdd "broadcast" ch,
       .acceptConn] ∧
    liveview_connect ch =
      [.acceptConn, .groupAdd "broadcast" ch, .createRecord ch] :=
  ⟨rfl, rfl⟩

/-- C8 counterexample: a legacy envelope whose action splits into three
parts (`"a->b->c"`) is dropped with a completely empty effect trace — in
particular nothing is printed to the process log, refuting the claim that
a bad split is logged. -/
theorem legacy_bad_split_counterexample :
    legacy_receive_json [] ⟨"c1", true, "broadcast"⟩
      [("action", .str "a->b->c"), ("data", .null)] = ([], none) := rfl

/-- C8 (amended): for legacy envelopes carrying `"data"` and a string
`"action"`: a split that does not yield exactly two parts drops the
message silently — nothing is logged, sent or raised; a resolution
failure, or an invocation that raises, is caught and only printed to the
process log (`"Bad action: ..."` and the exception type) — no error
envelope is sent to the client and no exception escapes, so the
connection stays open. -/
theorem legacy_fault_swallowed :
    (∀ (acts : List ((String × String) × RawHandler)) (c : ConsumerModel)
       (msg : List (String × JValue)) (a : String),
       dictContains msg "data" = true →
       dictGet msg "action" = some (.str a) →
       (pySplit a "->").length ≠ 2 →
       legacy_receive_json acts c msg = ([], none)) ∧
    (∀ (acts : List ((String × String) × RawHandler)) (c : ConsumerModel)
       (msg : List (String × JValue)) (a p1 p2 : String),
       dictContains msg "data" = true →
       dictGet msg "action" = some (.str a) →
       pySplit a "->" = [p1, p2] →
       resolveAction acts (strLower p1) (strLower p2) = none →
       legacy_receive_json acts c msg =
         ([.printLog ("Bad action: " ++ a), .printExcInfo], none)) ∧
    (∀ (acts : List ((String × String) × RawHandler)) (c : ConsumerModel)
       (msg : List (String × JValue)) (a p1 p2 : String) (h : RawHandler)
       (effs : List Effect) (e : String),
       dictContains msg "data" = true →
       dictGet msg "action" = some (.str a) →
       pySplit a "->" = [p1, p2] →
       resolveAction acts (strLower p1) (strLower p2) = some h →
       h c (.obj msg) = (effs, some e) →
       legacy_receive_json acts c msg =
         (effs ++ [.printLog ("Bad action: " ++ a), .printExcInfo], none)) := by
  refine ⟨?_, ?_, ?_⟩
  · intro acts c msg a hdata ha hlen
    have hact : dictContains msg "action" = true := by simp [dictContains, ha]
    rcases hs : pySplit a "->" with _ | ⟨p1, rest⟩
    · simp [legacy_receive_json, hdata, hact, ha, hs]
    · rcases rest with _ | ⟨p2, rest2⟩
      · simp [legacy_receive_json, hdata, hact, ha, hs]
      · rcases rest2 with _ | ⟨p3, rest3⟩
        · rw [hs] at hlen; simp at hlen
        · simp [legacy_receive_json, hdata, hact, ha, hs]
  · intro acts c msg a p1 p2 hdata ha hs hres
    have hact : dictContains msg "action" = true := by simp [dictContains, ha]
    simp [legacy_receive_json, hdata, hact, ha, hs, hres]
  · intro acts c msg a p1 p2 h effs e hdata ha hs hres hraise
    have hact : dictContains msg "action" = true := by simp [dictContains, ha]
    simp [legacy_receive_json, hdata, hact, ha, hs, hres, hraise]

/-- C8 witness: an empty action table; the envelope
`{"action": "home->search", "data": null}` is resolved against nothing,
and the fault is only printed. -/
theorem legacy_fault_swallowed_witness :
    legacy_receive_json [] ⟨"c1", true, "broadcast"⟩
      [("action", .str "home->search"), ("data", .null)] =
      ([.printLog "Bad action: home->search", .printExcInfo], none) :=
  legacy_fault_swallowed.2.1 [] ⟨"c1", true, "broadcast"⟩
    [("action", .str "home->search"), ("data", .null)]
    "home->search" "home" "search" rfl rfl rfl rfl
